import Mathlib

/-!
Shallow embedding of the downpour-extension background scripts.

The repository ships two variants of the background script (embedded here as
namespaces `V1` and `V2`) plus the popup script (namespace `Popup`, of which
only `removeSite` matters for the properties below).  Browser facilities
(the `URL` constructor, `fetch`, `chrome.tabs.query`,
`chrome.scripting.executeScript`, the saved site list) are modelled as an
environment record `Env`; persistent storage, the in-memory mirrors and the
externally observable actions (network requests, tab queries, script
injections, notifications) are modelled as an explicit state record threaded
through every function, with an append-only event log.
-/

/-- The probe statuses produced by the checkers (`"up" | "down" | "unsupported"`). -/
inductive Status where
  | up
  | down
  | unsupported
deriving Repr, DecidableEq

/-- A saved site `{ name, url }`. -/
structure Site where
  name : String
  url : String
deriving Repr, DecidableEq

/-- The observable pieces of a parsed `URL` object used by the scripts. -/
structure URLParts where
  protocol : String
  hostname : String
  href : String
deriving Repr, DecidableEq

/-- A browser tab as returned by `chrome.tabs.query`. -/
structure Tab where
  id : Nat
  url : String
deriving Repr, DecidableEq

/-- The aspects of a thrown fetch error the code inspects: whether it is a
`TypeError`, and whether its message contains the two signature substrings
(`"Failed to fetch"`, the missing access-control-allow-origin header text). -/
structure JsError where
  isTypeError : Bool
  msgFailedToFetch : Bool
  msgNoACAO : Bool
deriving Repr, DecidableEq

/-- Outcome of the direct `fetch` call: either a response with its `ok` flag,
or a thrown error. -/
inductive FetchOutcome where
  | response (ok : Bool)
  | failure (e : JsError)
deriving Repr, DecidableEq

/-- Outcome of `chrome.scripting.executeScript` on a tab: the host errored
(`chrome.runtime.lastError` set), the results array was missing or empty, or
a first injection result whose `result` payload may be absent (`none`). -/
inductive InjectOutcome where
  | hostError
  | noResults
  | payload (r : Option Status)
deriving Repr, DecidableEq

/-- Externally observable actions performed during a check. -/
inductive Event where
  | fetchReq (url : String)
  | tabQuery (pat : String)
  | scriptInject (tabId : Nat)
  | notifyUncheckable (hostname : String)
  | notifyRecovery (url : String)
deriving Repr, DecidableEq

/-- The browser environment: URL parsing, fetch outcomes, open tabs matching a
query pattern, injection outcomes per tab, and the saved site list. -/
structure Env where
  parse : String → Option URLParts
  fetchOutcome : String → FetchOutcome
  tabs : String → List Tab
  inject : Nat → InjectOutcome
  sites : List Site

/-- Executable model of JavaScript `String.prototype.trim` (drop leading and
trailing whitespace), written over the character list so that it reduces in
the kernel. -/
def jsTrim (s : String) : String :=
  String.mk (((s.data.dropWhile Char.isWhitespace).reverse.dropWhile Char.isWhitespace).reverse)

/-- Executable model of JavaScript `String.prototype.startsWith`, written over
the character lists so that it reduces in the kernel. -/
def jsStartsWith (s pre : String) : Bool :=
  pre.data.isPrefixOf s.data

/-- JavaScript-object lookup `m[k]` on an association list (insertion order). -/
def lookupA {α : Type} (m : List (String × α)) (k : String) : Option α :=
  (m.find? (fun p => p.1 == k)).map (fun p => p.2)

/-- JavaScript-object assignment `m[k] = v`: overwrite in place if the key is
present, otherwise append. -/
def insertA {α : Type} (m : List (String × α)) (k : String) (v : α) : List (String × α) :=
  if m.any (fun p => p.1 == k) then
    m.map (fun p => if p.1 == k then (k, v) else p)
  else
    m ++ [(k, v)]

/-- The events that constitute a network request, a tab query or a script
injection (everything the spec calls a "network or tab operation"). -/
def probeEvents (l : List Event) : List Event :=
  l.filter fun e =>
    match e with
    | Event.fetchReq _ => true
    | Event.tabQuery _ => true
    | Event.scriptInject _ => true
    | _ => false

/-- The events that constitute an invocation of the in-context prober
(tab query or script injection). -/
def tabInjectEvents (l : List Event) : List Event :=
  l.filter fun e =>
    match e with
    | Event.tabQuery _ => true
    | Event.scriptInject _ => true
    | _ => false

/-- Classification of a caught fetch error (the `catch` block of
`checkSiteViaFetch`): a `TypeError` carrying one of the two signature
substrings yields `unsupported`, anything else yields `down`. -/
def fetchErrStatus (e : JsError) : Status :=
  if e.isTypeError && (e.msgFailedToFetch || e.msgNoACAO) then Status.unsupported
  else Status.down

/-- The error thrown by `new URL` on a malformed URL: a `TypeError` whose
message ("Failed to construct URL: Invalid URL") contains neither of the two
fetch-failure signature substrings. -/
def urlCtorError : JsError :=
  { isTypeError := true, msgFailedToFetch := false, msgNoACAO := false }

/-- Result record of `checkSiteNow`. -/
structure RunOneResult where
  success : Bool
  status : Option Status
  error : Option String
deriving Repr, DecidableEq

namespace V1

/-- State of the first background-script variant: the in-memory
`UNCHECKABLE_DOMAINS` mirror, its persisted copy (`uncheckableDomains` in
local storage), the in-memory `lastStatus` map, the persisted `siteStatuses`
map, and the log of observable actions. -/
structure St where
  uncheckable : List String
  storedUncheckable : List String
  lastStatus : List (String × Status)
  siteStatuses : List (String × Status)
  events : List Event
deriving Repr, DecidableEq

/-- Hostname normalization at the top of `addToUncheckableDomains`: try
`new URL(rawHostname)`; accept only `http:`/`https:` schemes (any other scheme
throws into the catch); on any failure fall back to the trimmed raw input. -/
def normalizeHostname (env : Env) (rawHostname : String) : String :=
  match env.parse rawHostname with
  | some url =>
      if url.protocol == "http:" || url.protocol == "https:" then jsTrim url.hostname
      else jsTrim rawHostname
  | none => jsTrim rawHostname

/-- `addToUncheckableDomains` (first variant, lines 14-38): normalize; if the
result is empty or already present, return without writing; otherwise push to
the in-memory list, persist it, and create the denial notification. -/
def addToUncheckableDomains (env : Env) (rawHostname : String) (st : St) : St :=
  let hostname := normalizeHostname env rawHostname
  if hostname == "" || st.uncheckable.contains hostname then st
  else
    { st with
      uncheckable := st.uncheckable ++ [hostname]
      storedUncheckable := st.uncheckable ++ [hostname]
      events := st.events ++ [Event.notifyUncheckable hostname] }

/-- The disallowed scheme set of the first variant. -/
def unsupportedProtocols1 : List String := ["chrome:", "about:", "file:", "edge:"]

/-- `checkSiteViaFetch` (first variant, lines 57-85): parse the URL; skip the
four disallowed schemes; otherwise issue the HEAD request and classify; a
parse failure falls into the same catch with the URL-constructor error. -/
def checkSiteViaFetch (env : Env) (site : Site) (st : St) : Status × St :=
  match env.parse site.url with
  | some url =>
      if unsupportedProtocols1.contains url.protocol then (Status.unsupported, st)
      else
        let st1 : St := { st with events := st.events ++ [Event.fetchReq site.url] }
        match env.fetchOutcome site.url with
        | FetchOutcome.response ok => (if ok then Status.up else Status.down, st1)
        | FetchOutcome.failure e => (fetchErrStatus e, st1)
  | none => (fetchErrStatus urlCtorError, st)

/-- The tab filter of the first variant: parseable tab URL over `http:` or
`https:`, whose parsed `href` does not start with any of the internal-page
prefixes. -/
def tabAllowed1 (env : Env) (tab : Tab) : Bool :=
  match env.parse tab.url with
  | some tabUrl =>
      (tabUrl.protocol == "http:" || tabUrl.protocol == "https:") &&
      !jsStartsWith tabUrl.href "chrome://" &&
      !jsStartsWith tabUrl.href "edge://" &&
      !jsStartsWith tabUrl.href "about:" &&
      !jsStartsWith tabUrl.href "chrome-error://"
  | none => false

/-- `checkSiteViaContentScript` (first variant, lines 92-149): query tabs for
`url + "/*"`; find the first valid tab (no match resolves `down`); inject the
probe; a host error resolves `unsupported`; a missing results array or missing
payload resolves `down` (the `results?.[0]?.result || "down"` expression). -/
def checkSiteViaContentScript (env : Env) (url : String) (st : St) : Status × St :=
  let st1 : St := { st with events := st.events ++ [Event.tabQuery (url ++ "/*")] }
  match (env.tabs url).find? (tabAllowed1 env) with
  | none => (Status.down, st1)
  | some validTab =>
      let st2 : St := { st1 with events := st1.events ++ [Event.scriptInject validTab.id] }
      match env.inject validTab.id with
      | InjectOutcome.hostError => (Status.unsupported, st2)
      | InjectOutcome.noResults => (Status.down, st2)
      | InjectOutcome.payload r => (r.getD Status.down, st2)

/-- `checkSite` (first variant, lines 156-186): parse (malformed URL is caught
and returns `unsupported`); denylist gate; disallowed-scheme gate with
proactive denial; direct prober fast path; in-context fallback with denial on
a terminal `unsupported`. -/
def checkSite (env : Env) (site : Site) (st : St) : Status × St :=
  match env.parse site.url with
  | none => (Status.unsupported, st)
  | some urlObj =>
      if st.uncheckable.contains urlObj.hostname then (Status.unsupported, st)
      else if unsupportedProtocols1.contains urlObj.protocol then
        (Status.unsupported, addToUncheckableDomains env urlObj.hostname st)
      else
        let fr := checkSiteViaFetch env site st
        if fr.1 != Status.unsupported then fr
        else
          let cr := checkSiteViaContentScript env site.url fr.2
          if cr.1 == Status.unsupported then
            (cr.1, addToUncheckableDomains env urlObj.hostname cr.2)
          else cr

/-- The per-site loop of `checkAllSites` (lines 200-214): check, read the
baseline, record the new status, notify exactly on a `down` to `up`
transition. -/
def checkAllLoop (env : Env) (sites : List Site) (baseline : List (String × Status))
    (updated : List (String × Status)) (st : St) : List (String × Status) × St :=
  match sites with
  | [] => (updated, st)
  | site :: rest =>
      let cr := checkSite env site st
      let currentStatus := cr.1
      let prevStatus := lookupA baseline site.url
      let updated1 := insertA updated site.url currentStatus
      let st1 : St :=
        if prevStatus == some Status.down && currentStatus == Status.up then
          { cr.2 with events := cr.2.events ++ [Event.notifyRecovery site.url] }
        else cr.2
      checkAllLoop env rest baseline updated1 st1

/-- `checkAllSites` (lines 191-218): reload the persisted snapshot as the
baseline (also into `lastStatus`), run the loop over the saved sites with a
fresh empty accumulator, then replace both the in-memory map and the persisted
snapshot with the accumulated one. -/
def checkAllSites (env : Env) (st : St) : St :=
  let baseline := st.siteStatuses
  let r := checkAllLoop env env.sites baseline [] { st with lastStatus := baseline }
  { r.2 with lastStatus := r.1, siteStatuses := r.1 }

/-- `checkSiteNow` (first variant, lines 225-245): find the site by exact URL;
check it; read the previous status from the in-memory map; overwrite that one
key; notify on `down` to `up`; persist the whole in-memory map. -/
def checkSiteNow (env : Env) (siteUrl : String) (st : St) : RunOneResult × St :=
  match env.sites.find? (fun s => s.url == siteUrl) with
  | none => ({ success := false, status := none, error := some "Site not found" }, st)
  | some site =>
      let cr := checkSite env site st
      let currentStatus := cr.1
      let previousStatus := lookupA cr.2.lastStatus site.url
      let st1 : St := { cr.2 with lastStatus := insertA cr.2.lastStatus site.url currentStatus }
      let st2 : St :=
        if previousStatus == some Status.down && currentStatus == Status.up then
          { st1 with events := st1.events ++ [Event.notifyRecovery site.url] }
        else st1
      let st3 : St := { st2 with siteStatuses := st2.lastStatus }
      ({ success := true, status := some currentStatus, error := none }, st3)

end V1

namespace V2

/-- State of the second background-script variant.  Its `checkSite` can
resolve the JavaScript value `undefined` (modelled as `none`), so the status
maps carry `Option Status` values. -/
structure St where
  uncheckable : List String
  storedUncheckable : List String
  lastStatus : List (String × Option Status)
  siteStatuses : List (String × Option Status)
  events : List Event
deriving Repr, DecidableEq

/-- `addToUncheckableDomains` (second variant, lines 293-319): identical logic
to the first variant. -/
def addToUncheckableDomains (env : Env) (rawHostname : String) (st : St) : St :=
  let hostname := V1.normalizeHostname env rawHostname
  if hostname == "" || st.uncheckable.contains hostname then st
  else
    { st with
      uncheckable := st.uncheckable ++ [hostname]
      storedUncheckable := st.uncheckable ++ [hostname]
      events := st.events ++ [Event.notifyUncheckable hostname] }

/-- The disallowed scheme set of the second variant (no `edge:`). -/
def unsupportedProtocols2 : List String := ["chrome:", "about:", "file:"]

/-- `checkSiteViaFetch` (second variant, lines 338-371): like the first
variant but with the three-scheme disallowed set. -/
def checkSiteViaFetch (env : Env) (site : Site) (st : St) : Status × St :=
  match env.parse site.url with
  | some url =>
      if unsupportedProtocols2.contains url.protocol then (Status.unsupported, st)
      else
        let st1 : St := { st with events := st.events ++ [Event.fetchReq site.url] }
        match env.fetchOutcome site.url with
        | FetchOutcome.response ok => (if ok then Status.up else Status.down, st1)
        | FetchOutcome.failure e => (fetchErrStatus e, st1)
  | none => (fetchErrStatus urlCtorError, st)

/-- The tab filter of the second variant: parseable tab URL over `http:` or
`https:`, and the raw `tab.url` does not start with the three excluded
internal-page prefixes (no `edge://` exclusion here). -/
def tabAllowed2 (env : Env) (tab : Tab) : Bool :=
  match env.parse tab.url with
  | some tabUrl =>
      if tabUrl.protocol != "http:" && tabUrl.protocol != "https:" then false
      else if jsStartsWith tab.url "chrome-error://" || jsStartsWith tab.url "chrome://" ||
          jsStartsWith tab.url "about:" then false
      else true
  | none => false

/-- `checkSiteViaContentScript` (second variant, lines 378-450): empty tab
list resolves `down`; no surviving candidate resolves `down`; a host error
resolves `unsupported`; a missing or empty results array resolves `down`;
otherwise it resolves `results[0].result` as-is (possibly `undefined`). -/
def checkSiteViaContentScript (env : Env) (url : String) (st : St) : Option Status × St :=
  let st1 : St := { st with events := st.events ++ [Event.tabQuery (url ++ "/*")] }
  let tabs := env.tabs url
  if tabs.isEmpty then (some Status.down, st1)
  else
    match tabs.find? (tabAllowed2 env) with
    | none => (some Status.down, st1)
    | some allowedTab =>
        let st2 : St := { st1 with events := st1.events ++ [Event.scriptInject allowedTab.id] }
        match env.inject allowedTab.id with
        | InjectOutcome.hostError => (some Status.unsupported, st2)
        | InjectOutcome.noResults => (some Status.down, st2)
        | InjectOutcome.payload r => (r, st2)

/-- `checkSite` (second variant, lines 457-485): the denylist gate is tried
under a catch that proceeds on parse failure; no disallowed-scheme gate here;
direct prober fast path; in-context fallback with denial (guarded by its own
catch) on a terminal `unsupported`. -/
def checkSite (env : Env) (site : Site) (st : St) : Option Status × St :=
  let denied :=
    match env.parse site.url with
    | some urlObj => st.uncheckable.contains urlObj.hostname
    | none => false
  if denied then (some Status.unsupported, st)
  else
    let fr := checkSiteViaFetch env site st
    if fr.1 != Status.unsupported then (some fr.1, fr.2)
    else
      let cr := checkSiteViaContentScript env site.url fr.2
      if cr.1 == some Status.unsupported then
        let st2 :=
          match env.parse site.url with
          | some u => addToUncheckableDomains env u.hostname cr.2
          | none => cr.2
        (cr.1, st2)
      else cr

/-- `checkSiteNow` (second variant, lines 524-548): find the site; check it;
read the previous status; overwrite the one key in the in-memory map; notify
when `prev !== cur && cur === "up" && prev === "down"`; persist the whole
in-memory map. -/
def checkSiteNow (env : Env) (siteUrl : String) (st : St) : RunOneResult × St :=
  match env.sites.find? (fun s => s.url == siteUrl) with
  | none => ({ success := false, status := none, error := some "Site not found" }, st)
  | some site =>
      let cr := checkSite env site st
      let currentStatus := cr.1
      let prevStatus := (lookupA cr.2.lastStatus site.url).join
      let st1 : St := { cr.2 with lastStatus := insertA cr.2.lastStatus site.url currentStatus }
      let st2 : St :=
        if prevStatus != currentStatus && currentStatus == some Status.up &&
            prevStatus == some Status.down then
          { st1 with events := st1.events ++ [Event.notifyRecovery site.url] }
        else st1
      let st3 : St := { st2 with siteStatuses := st2.lastStatus }
      ({ success := true, status := currentStatus, error := none }, st3)

end V2

namespace Popup

/-- `removeSite` (popup script, lines 781-804), restricted to the data it
touches: an out-of-range index changes nothing; otherwise the site is spliced
out and persisted, then the removed URL is parsed (a parse failure throws
inside the callback, aborting before the denylist update) and the denylist is
filtered by the removed hostname. -/
def removeSite (env : Env) (index : Nat) (sites : List Site)
    (uncheckableDomains : List String) : List Site × List String :=
  match sites[index]? with
  | none => (sites, uncheckableDomains)
  | some removedSite =>
      let sites1 := sites.eraseIdx index
      match env.parse removedSite.url with
      | some u => (sites1, uncheckableDomains.filter (fun host => host != u.hostname))
      | none => (sites1, uncheckableDomains)

end Popup


/-! ## Concrete fixtures (environments, sites, states) used to instantiate
the theorems below on explicit inputs -/

/-- Parsed form of `https://example.com`. -/
def exURL : URLParts :=
  { protocol := "https:", hostname := "example.com", href := "https://example.com/" }

/-- A parse oracle recognizing exactly `https://example.com`. -/
def exParse : String → Option URLParts := fun s =>
  if s == "https://example.com" then some exURL else none

/-- The example saved site. -/
def exSite : Site := { name := "example.com", url := "https://example.com" }

/-- An environment where `https://example.com` parses, fetch succeeds with an
ok response, no tabs are open, and the site list holds the one example site. -/
def exEnv : Env :=
  { parse := exParse
    fetchOutcome := fun _ => FetchOutcome.response true
    tabs := fun _ => []
    inject := fun _ => InjectOutcome.noResults
    sites := [exSite] }

/-- Empty initial state for the first variant. -/
def emptySt1 : V1.St :=
  { uncheckable := [], storedUncheckable := [], lastStatus := [], siteStatuses := []
    events := [] }

/-- Empty initial state for the second variant. -/
def emptySt2 : V2.St :=
  { uncheckable := [], storedUncheckable := [], lastStatus := [], siteStatuses := []
    events := [] }

/-- First-variant state with `example.com` already on the denylist. -/
def denySt1 : V1.St := { emptySt1 with uncheckable := ["example.com"] }

/-- Second-variant state with `example.com` already on the denylist. -/
def denySt2 : V2.St := { emptySt2 with uncheckable := ["example.com"] }

/-- First-variant state whose in-memory map has the example site `down`. -/
def downSt1 : V1.St :=
  { emptySt1 with lastStatus := [("https://example.com", Status.down)] }

/-- Second-variant state whose in-memory map has the example site `down`. -/
def downSt2 : V2.St :=
  { emptySt2 with lastStatus := [("https://example.com", some Status.down)] }

/-- Parsed form of `file:///etc/passwd`: the WHATWG URL constructor gives
such a path-only `file:` URL an empty hostname. -/
def fileURL : URLParts :=
  { protocol := "file:", hostname := "", href := "file:///etc/passwd" }

/-- A parse oracle recognizing exactly `file:///etc/passwd`. -/
def fileParse : String → Option URLParts := fun s =>
  if s == "file:///etc/passwd" then some fileURL else none

/-- Environment for the `file:` scenario. -/
def fileEnv : Env :=
  { parse := fileParse
    fetchOutcome := fun _ => FetchOutcome.response true
    tabs := fun _ => []
    inject := fun _ => InjectOutcome.noResults
    sites := [] }

/-- The `file:` site of the scenario. -/
def fileSite : Site := { name := "passwd", url := "file:///etc/passwd" }

/-- An environment in which no string parses as a URL. -/
def noParseEnv : Env :=
  { parse := fun _ => none
    fetchOutcome := fun _ => FetchOutcome.response true
    tabs := fun _ => []
    inject := fun _ => InjectOutcome.noResults
    sites := [] }

/-- A site with a malformed URL. -/
def badSite : Site := { name := "bad", url := "not a url" }

/-- Parsed form of `chrome://settings` (nonempty hostname, disallowed scheme). -/
def chromeURL : URLParts :=
  { protocol := "chrome:", hostname := "settings", href := "chrome://settings" }

/-- A parse oracle recognizing exactly `chrome://settings`. -/
def chromeParse : String → Option URLParts := fun s =>
  if s == "chrome://settings" then some chromeURL else none

/-- Environment for the disallowed-scheme scenario. -/
def chromeEnv : Env :=
  { parse := chromeParse
    fetchOutcome := fun _ => FetchOutcome.response true
    tabs := fun _ => []
    inject := fun _ => InjectOutcome.noResults
    sites := [] }

/-- The `chrome:` site of the scenario. -/
def chromeSite : Site := { name := "settings", url := "chrome://settings" }

/-- A cross-origin-style fetch failure: a `TypeError` whose message carries
the failed-to-fetch signature. -/
def corsErr : JsError := { isTypeError := true, msgFailedToFetch := true, msgNoACAO := false }

/-- A non-`TypeError` fetch failure. -/
def plainErr : JsError := { isTypeError := false, msgFailedToFetch := false, msgNoACAO := false }

/-- Environment whose fetch always fails with the cross-origin signature. -/
def corsEnv : Env := { exEnv with fetchOutcome := fun _ => FetchOutcome.failure corsErr }

/-- Environment whose fetch always fails with a non-`TypeError`. -/
def errEnv : Env := { exEnv with fetchOutcome := fun _ => FetchOutcome.failure plainErr }

/-- An open tab on the example origin. -/
def exTab : Tab := { id := 7, url := "https://example.com/page" }

/-- Parsed form of the example tab URL. -/
def exTabURL : URLParts :=
  { protocol := "https:", hostname := "example.com", href := "https://example.com/page" }

/-- A parse oracle recognizing the example origin and the example tab URL. -/
def tabParse : String → Option URLParts := fun s =>
  if s == "https://example.com" then some exURL
  else if s == "https://example.com/page" then some exTabURL
  else none

/-- Environment with an open example tab whose injection errors in the host. -/
def tabsEnvHostErr : Env :=
  { parse := tabParse
    fetchOutcome := fun _ => FetchOutcome.failure corsErr
    tabs := fun _ => [exTab]
    inject := fun _ => InjectOutcome.hostError
    sites := [exSite] }

/-- Environment with an open example tab whose injection yields no results
array. -/
def tabsEnvNoRes : Env := { tabsEnvHostErr with inject := fun _ => InjectOutcome.noResults }

/-- Environment with an open example tab whose injection yields a results
entry without a payload. -/
def tabsEnvNoPayload : Env :=
  { tabsEnvHostErr with inject := fun _ => InjectOutcome.payload none }

/-- First-variant state with an empty in-memory map but a stale persisted
snapshot entry for another URL. -/
def staleSt1 : V1.St := { emptySt1 with siteStatuses := [("https://stale.example", Status.up)] }

/-- Second-variant state with an empty in-memory map but a stale persisted
snapshot entry for another URL. -/
def staleSt2 : V2.St :=
  { emptySt2 with siteStatuses := [("https://stale.example", some Status.up)] }

/-- Environment with one saved site whose URL never parses: every check
resolves `unsupported` independently of the state. -/
def stableEnv : Env := { noParseEnv with sites := [badSite] }

/-! ## General lemmas about the embedded operations -/

theorem V1.addToUncheckableDomains_recovery (env : Env) (raw : String) (st : V1.St)
    (u : String) :
    Event.notifyRecovery u ∈ (V1.addToUncheckableDomains env raw st).events ↔
      Event.notifyRecovery u ∈ st.events := by
  unfold V1.addToUncheckableDomains
  dsimp only
  split
  · exact Iff.rfl
  · simp

theorem V1.checkSiteViaFetch_recovery (env : Env) (site : Site) (st : V1.St)
    (u : String) :
    Event.notifyRecovery u ∈ (V1.checkSiteViaFetch env site st).2.events ↔
      Event.notifyRecovery u ∈ st.events := by
  unfold V1.checkSiteViaFetch
  cases hp : env.parse site.url with
  | none => exact Iff.rfl
  | some url =>
      dsimp only
      split
      · exact Iff.rfl
      · cases ho : env.fetchOutcome site.url <;> simp [ho]

theorem V1.checkSiteViaContentScript_recovery (env : Env) (url : String) (st : V1.St)
    (u : String) :
    Event.notifyRecovery u ∈ (V1.checkSiteViaContentScript env url st).2.events ↔
      Event.notifyRecovery u ∈ st.events := by
  unfold V1.checkSiteViaContentScript
  dsimp only
  cases hf : (env.tabs url).find? (V1.tabAllowed1 env) with
  | none => simp
  | some validTab => cases hi : env.inject validTab.id <;> simp [hi]

theorem V1.checkSite_recovery (env : Env) (site : Site) (st : V1.St) (u : String) :
    Event.notifyRecovery u ∈ (V1.checkSite env site st).2.events ↔
      Event.notifyRecovery u ∈ st.events := by
  unfold V1.checkSite
  cases hp : env.parse site.url with
  | none => exact Iff.rfl
  | some urlObj =>
      dsimp only
      split
      · exact Iff.rfl
      · split
        · exact V1.addToUncheckableDomains_recovery env urlObj.hostname st u
        · split
          · exact V1.checkSiteViaFetch_recovery env site st u
          · split
            · rw [V1.addToUncheckableDomains_recovery,
                V1.checkSiteViaContentScript_recovery, V1.checkSiteViaFetch_recovery]
            · rw [V1.checkSiteViaContentScript_recovery, V1.checkSiteViaFetch_recovery]

theorem V2.addToUncheckableDomains_recovery2 (env : Env) (raw : String) (st : V2.St)
    (u : String) :
    Event.notifyRecovery u ∈ (V2.addToUncheckableDomains env raw st).events ↔
      Event.notifyRecovery u ∈ st.events := by
  unfold V2.addToUncheckableDomains
  dsimp only
  split
  · exact Iff.rfl
  · simp

theorem V2.checkSiteViaFetch_recovery2 (env : Env) (site : Site) (st : V2.St)
    (u : String) :
    Event.notifyRecovery u ∈ (V2.checkSiteViaFetch env site st).2.events ↔
      Event.notifyRecovery u ∈ st.events := by
  unfold V2.checkSiteViaFetch
  cases hp : env.parse site.url with
  | none => exact Iff.rfl
  | some url =>
      dsimp only
      split
      · exact Iff.rfl
      · cases ho : env.fetchOutcome site.url <;> simp [ho]

theorem V2.checkSiteViaContentScript_recovery2 (env : Env) (url : String) (st : V2.St)
    (u : String) :
    Event.notifyRecovery u ∈ (V2.checkSiteViaContentScript env url st).2.events ↔
      Event.notifyRecovery u ∈ st.events := by
  unfold V2.checkSiteViaContentScript
  dsimp only
  split
  · simp
  · cases hf : (env.tabs url).find? (V2.tabAllowed2 env) with
    | none => simp
    | some allowedTab => cases hi : env.inject allowedTab.id <;> simp [hi]

theorem V2.checkSite_recovery2 (env : Env) (site : Site) (st : V2.St) (u : String) :
    Event.notifyRecovery u ∈ (V2.checkSite env site st).2.events ↔
      Event.notifyRecovery u ∈ st.events := by
  unfold V2.checkSite
  dsimp only
  split
  · exact Iff.rfl
  · split
    · exact V2.checkSiteViaFetch_recovery2 env site st u
    · split
      · cases hp : env.parse site.url with
        | none => rw [V2.checkSiteViaContentScript_recovery2, V2.checkSiteViaFetch_recovery2]
        | some uu =>
            rw [V2.addToUncheckableDomains_recovery2,
              V2.checkSiteViaContentScript_recovery2, V2.checkSiteViaFetch_recovery2]
      · rw [V2.checkSiteViaContentScript_recovery2, V2.checkSiteViaFetch_recovery2]

theorem V1.addToUncheckableDomains_lastStatus (env : Env) (raw : String) (st : V1.St) :
    (V1.addToUncheckableDomains env raw st).lastStatus = st.lastStatus := by
  unfold V1.addToUncheckableDomains
  dsimp only
  split <;> rfl

theorem V1.checkSiteViaFetch_lastStatus (env : Env) (site : Site) (st : V1.St) :
    (V1.checkSiteViaFetch env site st).2.lastStatus = st.lastStatus := by
  unfold V1.checkSiteViaFetch
  cases hp : env.parse site.url with
  | none => rfl
  | some url =>
      dsimp only
      split
      · rfl
      · cases ho : env.fetchOutcome site.url <;> simp [ho]

theorem V1.checkSiteViaContentScript_lastStatus (env : Env) (url : String) (st : V1.St) :
    (V1.checkSiteViaContentScript env url st).2.lastStatus = st.lastStatus := by
  unfold V1.checkSiteViaContentScript
  dsimp only
  cases hf : (env.tabs url).find? (V1.tabAllowed1 env) with
  | none => simp
  | some validTab => cases hi : env.inject validTab.id <;> simp [hi]

theorem V1.checkSite_lastStatus (env : Env) (site : Site) (st : V1.St) :
    (V1.checkSite env site st).2.lastStatus = st.lastStatus := by
  unfold V1.checkSite
  cases hp : env.parse site.url with
  | none => rfl
  | some urlObj =>
      dsimp only
      split
      · rfl
      · split
        · exact V1.addToUncheckableDomains_lastStatus env urlObj.hostname st
        · split
          · exact V1.checkSiteViaFetch_lastStatus env site st
          · split
            · rw [V1.addToUncheckableDomains_lastStatus,
                V1.checkSiteViaContentScript_lastStatus, V1.checkSiteViaFetch_lastStatus]
            · rw [V1.checkSiteViaContentScript_lastStatus, V1.checkSiteViaFetch_lastStatus]

theorem V2.addToUncheckableDomains_lastStatus2 (env : Env) (raw : String) (st : V2.St) :
    (V2.addToUncheckableDomains env raw st).lastStatus = st.lastStatus := by
  unfold V2.addToUncheckableDomains
  dsimp only
  split <;> rfl

theorem V2.checkSiteViaFetch_lastStatus2 (env : Env) (site : Site) (st : V2.St) :
    (V2.checkSiteViaFetch env site st).2.lastStatus = st.lastStatus := by
  unfold V2.checkSiteViaFetch
  cases hp : env.parse site.url with
  | none => rfl
  | some url =>
      dsimp only
      split
      · rfl
      · cases ho : env.fetchOutcome site.url <;> simp [ho]

theorem V2.checkSiteViaContentScript_lastStatus2 (env : Env) (url : String) (st : V2.St) :
    (V2.checkSiteViaContentScript env url st).2.lastStatus = st.lastStatus := by
  unfold V2.checkSiteViaContentScript
  dsimp only
  split
  · rfl
  · cases hf : (env.tabs url).find? (V2.tabAllowed2 env) with
    | none => simp
    | some allowedTab => cases hi : env.inject allowedTab.id <;> simp [hi]

theorem V2.checkSite_lastStatus2 (env : Env) (site : Site) (st : V2.St) :
    (V2.checkSite env site st).2.lastStatus = st.lastStatus := by
  unfold V2.checkSite
  dsimp only
  split
  · rfl
  · split
    · exact V2.checkSiteViaFetch_lastStatus2 env site st
    · split
      · cases hp : env.parse site.url with
        | none => rw [V2.checkSiteViaContentScript_lastStatus2, V2.checkSiteViaFetch_lastStatus2]
        | some uu =>
            rw [V2.addToUncheckableDomains_lastStatus2,
              V2.checkSiteViaContentScript_lastStatus2, V2.checkSiteViaFetch_lastStatus2]
      · rw [V2.checkSiteViaContentScript_lastStatus2, V2.checkSiteViaFetch_lastStatus2]

theorem V1.checkSiteViaFetch_tabInject (env : Env) (site : Site) (st : V1.St) :
    tabInjectEvents (V1.checkSiteViaFetch env site st).2.events =
      tabInjectEvents st.events := by
  unfold V1.checkSiteViaFetch
  cases hp : env.parse site.url with
  | none => rfl
  | some url =>
      dsimp only
      split
      · rfl
      · cases ho : env.fetchOutcome site.url <;> simp [ho, tabInjectEvents, List.filter_append]

theorem V2.checkSiteViaFetch_tabInject2 (env : Env) (site : Site) (st : V2.St) :
    tabInjectEvents (V2.checkSiteViaFetch env site st).2.events =
      tabInjectEvents st.events := by
  unfold V2.checkSiteViaFetch
  cases hp : env.parse site.url with
  | none => rfl
  | some url =>
      dsimp only
      split
      · rfl
      · cases ho : env.fetchOutcome site.url <;> simp [ho, tabInjectEvents, List.filter_append]

theorem V1.addToUncheckableDomains_probeEvents (env : Env) (raw : String) (st : V1.St) :
    probeEvents (V1.addToUncheckableDomains env raw st).events = probeEvents st.events := by
  unfold V1.addToUncheckableDomains
  dsimp only
  split
  · rfl
  · simp [probeEvents, List.filter_append]

/-! ## Claim theorems -/

/-- C2: for every site whose URL parses and whose hostname is on the denylist
at call time, `checkSite` returns `unsupported` and leaves the state
completely unchanged — in particular no network request, no tab query and no
script injection is performed — in both background variants. -/
theorem denylisted_site_unsupported_no_probe
    (env : Env) (site : Site) (st : V1.St) (st2 : V2.St) (u : URLParts)
    (hp : env.parse site.url = some u)
    (h1 : u.hostname ∈ st.uncheckable)
    (h2 : u.hostname ∈ st2.uncheckable) :
    V1.checkSite env site st = (Status.unsupported, st) ∧
    V2.checkSite env site st2 = (some Status.unsupported, st2) := by
  constructor
  · simp [V1.checkSite, hp, h1]
  · simp [V2.checkSite, hp, h2]

/-- Witness for C2 at the concrete denylisted example site. -/
theorem denylisted_site_unsupported_no_probe_witness :
    V1.checkSite exEnv exSite denySt1 = (Status.unsupported, denySt1) ∧
    V2.checkSite exEnv exSite denySt2 = (some Status.unsupported, denySt2) :=
  denylisted_site_unsupported_no_probe exEnv exSite denySt1 denySt2 exURL
    (by decide) (by decide) (by decide)

/-- C1: a recovery notification for a site is emitted by one iteration of the
batch runner loop, by the first-variant single-site runner and by the
second-variant single-site runner exactly when the baseline status recorded
for that site URL is literally `down` and the newly computed status is
literally `up`; in particular an absent baseline (`unknown`), `up` to `up`,
`down` to `down` and `unsupported` to `up` never notify. -/
theorem recovery_notification_iff_down_up
    (env : Env) (site : Site) (baseline updated : List (String × Status))
    (siteUrl : String) (st : V1.St) (st2 : V2.St)
    (hfind : env.sites.find? (fun s => s.url == siteUrl) = some site)
    (h1 : Event.notifyRecovery site.url ∉ st.events)
    (h2 : Event.notifyRecovery site.url ∉ st2.events) :
    (Event.notifyRecovery site.url ∈ (V1.checkAllLoop env [site] baseline updated st).2.events ↔
      lookupA baseline site.url = some Status.down ∧
        (V1.checkSite env site st).1 = Status.up) ∧
    (Event.notifyRecovery site.url ∈ (V1.checkSiteNow env siteUrl st).2.events ↔
      lookupA st.lastStatus site.url = some Status.down ∧
        (V1.checkSite env site st).1 = Status.up) ∧
    (Event.notifyRecovery site.url ∈ (V2.checkSiteNow env siteUrl st2).2.events ↔
      (lookupA st2.lastStatus site.url).join = some Status.down ∧
        (V2.checkSite env site st2).1 = some Status.up) := by
  refine ⟨?_, ?_, ?_⟩
  · simp only [V1.checkAllLoop]
    split
    case isTrue hc =>
      simp only [Bool.and_eq_true, beq_iff_eq] at hc
      simp [hc]
    case isFalse hc =>
      rw [V1.checkSite_recovery]
      constructor
      · intro hm; exact absurd hm h1
      · rintro ⟨ha, hb⟩
        exact absurd (by simp [ha, hb]) hc
  · unfold V1.checkSiteNow
    rw [hfind]
    dsimp only
    split
    case isTrue hc =>
      simp only [Bool.and_eq_true, beq_iff_eq] at hc
      rw [V1.checkSite_lastStatus] at hc
      simp [hc]
    case isFalse hc =>
      rw [V1.checkSite_lastStatus] at hc
      dsimp only
      rw [V1.checkSite_recovery]
      constructor
      · intro hm; exact absurd hm h1
      · rintro ⟨ha, hb⟩
        exact absurd (by simp [ha, hb]) hc
  · unfold V2.checkSiteNow
    rw [hfind]
    dsimp only
    split
    case isTrue hc =>
      simp only [Bool.and_eq_true, beq_iff_eq, bne_iff_ne] at hc
      rw [V2.checkSite_lastStatus2] at hc
      refine ⟨fun _ => ⟨hc.2, hc.1.2⟩, fun _ => ?_⟩
      simp
    case isFalse hc =>
      rw [V2.checkSite_lastStatus2] at hc
      dsimp only
      rw [V2.checkSite_recovery2]
      constructor
      · intro hm; exact absurd hm h2
      · rintro ⟨ha, hb⟩
        refine absurd ?_ hc
        rw [ha, hb]
        decide

/-- Witness for C1: with baseline `down` and a succeeding probe the recovery
notification fires on all three paths, and with baseline `unsupported` it
does not fire. -/
theorem recovery_notification_iff_down_up_witness :
    Event.notifyRecovery "https://example.com" ∈
      (V1.checkAllLoop exEnv [exSite]
        [("https://example.com", Status.down)] [] downSt1).2.events ∧
    Event.notifyRecovery "https://example.com" ∈
      (V1.checkSiteNow exEnv "https://example.com" downSt1).2.events ∧
    Event.notifyRecovery "https://example.com" ∈
      (V2.checkSiteNow exEnv "https://example.com" downSt2).2.events ∧
    Event.notifyRecovery "https://example.com" ∉
      (V1.checkAllLoop exEnv [exSite]
        [("https://example.com", Status.unsupported)] [] downSt1).2.events := by
  have h := recovery_notification_iff_down_up exEnv exSite
    [("https://example.com", Status.down)] [] "https://example.com" downSt1 downSt2
    (by decide) (by decide) (by decide)
  have hneg := recovery_notification_iff_down_up exEnv exSite
    [("https://example.com", Status.unsupported)] [] "https://example.com" downSt1 downSt2
    (by decide) (by decide) (by decide)
  refine ⟨?_, ?_, ?_, ?_⟩
  · exact h.1.mpr ⟨by decide, by decide⟩
  · exact h.2.1.mpr ⟨by decide, by decide⟩
  · exact h.2.2.mpr ⟨by decide, by decide⟩
  · intro hm
    exact absurd (hneg.1.mp hm) (by decide)

/-- C3 counterexample: for the site `file:///etc/passwd` — whose URL parses
with scheme `file:` and (as the WHATWG URL constructor yields for path-only
`file:` URLs) empty hostname — `checkSite` returns `unsupported` but the
denylist afterwards does NOT contain the site hostname, because
`addToUncheckableDomains` ignores an empty hostname. -/
theorem file_scheme_denylist_counterexample :
    fileEnv.parse fileSite.url = some fileURL ∧
    (V1.checkSite fileEnv fileSite emptySt1).1 = Status.unsupported ∧
    fileURL.hostname ∉ (V1.checkSite fileEnv fileSite emptySt1).2.uncheckable := by
  decide

/-- C3 (amended): for every site whose URL parses with a scheme in the
disallowed set, `checkSite` returns `unsupported` without any network, tab or
injection action, and the denylist afterwards contains the hostname provided
the hostname is nonempty (an empty hostname, as for path-only `file:` URLs,
is silently ignored by the denial).  The hypotheses `hplain` and `htrim`
record that a bare hostname does not itself parse as a URL and carries no
surrounding whitespace. -/
theorem disallowed_scheme_unsupported_denylist
    (env : Env) (site : Site) (st : V1.St) (u : URLParts)
    (hp : env.parse site.url = some u)
    (hs : u.protocol ∈ V1.unsupportedProtocols1)
    (hplain : env.parse u.hostname = none)
    (htrim : jsTrim u.hostname = u.hostname) :
    (V1.checkSite env site st).1 = Status.unsupported ∧
    probeEvents (V1.checkSite env site st).2.events = probeEvents st.events ∧
    (u.hostname ≠ "" → u.hostname ∈ (V1.checkSite env site st).2.uncheckable) := by
  unfold V1.checkSite
  rw [hp]
  dsimp only
  split
  case isTrue hd => exact ⟨rfl, rfl, fun _ => by simpa using hd⟩
  case isFalse hd =>
    split
    case isTrue hs2 =>
      refine ⟨rfl, V1.addToUncheckableDomains_probeEvents env u.hostname st, fun hne => ?_⟩
      have hd2 : u.hostname ∉ st.uncheckable := by simpa using hd
      simp [V1.addToUncheckableDomains, V1.normalizeHostname, hplain, htrim, hne, hd2]
    case isFalse hs2 => exact absurd (by simpa using hs) hs2

/-- Witness for C3 (amended) at the concrete `chrome://settings` site. -/
theorem disallowed_scheme_unsupported_denylist_witness :
    (V1.checkSite chromeEnv chromeSite emptySt1).1 = Status.unsupported ∧
    "settings" ∈ (V1.checkSite chromeEnv chromeSite emptySt1).2.uncheckable := by
  have h := disallowed_scheme_unsupported_denylist chromeEnv chromeSite emptySt1 chromeURL
    (by decide) (by decide) (by decide) (by decide)
  exact ⟨h.1, h.2.2 (by decide)⟩

/-- C4 counterexample: on a site whose URL does not parse, the second-variant
`checkSite` does not return `unsupported` immediately — its parse failure is
swallowed, the direct prober is entered (its own `new URL` throws a
`TypeError` without the fetch signatures) and the result is `down`. -/
theorem malformed_url_checkSite2_counterexample :
    noParseEnv.parse badSite.url = none ∧
    (V2.checkSite noParseEnv badSite emptySt2).1 = some Status.down ∧
    (V2.checkSite noParseEnv badSite emptySt2).1 ≠ some Status.unsupported := by
  decide

/-- C4 (amended): the first-variant `checkSite` is a total function into the
three probe statuses (the embedding has no exceptional exit), and on a site
whose URL fails to parse it returns `unsupported` immediately with the state
unchanged (so neither prober performs any action).  The second variant
instead flows into the direct prober, whose internal catch classifies the
URL-constructor error and yields `down`, also with the state unchanged (no
network request, and the in-context prober is never reached); moreover the
second variant is NOT total on the three statuses: when its direct probe
fails with a cross-origin signature and the in-context injection yields a
results entry without a `result` payload, it resolves `undefined` (`none`),
as the last conjunct shows on a concrete input. -/
theorem malformed_url_checkSite
    (env : Env) (site : Site) (st : V1.St) (st2 : V2.St)
    (hp : env.parse site.url = none) :
    V1.checkSite env site st = (Status.unsupported, st) ∧
    V2.checkSite env site st2 = (some Status.down, st2) ∧
    (∀ (env2 : Env) (site2 : Site) (stx : V1.St),
      (V1.checkSite env2 site2 stx).1 = Status.up ∨
      (V1.checkSite env2 site2 stx).1 = Status.down ∨
      (V1.checkSite env2 site2 stx).1 = Status.unsupported) ∧
    (V2.checkSite tabsEnvNoPayload exSite emptySt2).1 = none := by
  refine ⟨?_, ?_, ?_, ?_⟩
  · unfold V1.checkSite
    rw [hp]
  · unfold V2.checkSite
    simp [V2.checkSiteViaFetch, hp, fetchErrStatus, urlCtorError]
  · intro env2 site2 stx
    cases (V1.checkSite env2 site2 stx).1 <;> simp
  · decide

/-- Witness for C4 (amended) at the concrete malformed-URL site. -/
theorem malformed_url_checkSite_witness :
    V1.checkSite noParseEnv badSite emptySt1 = (Status.unsupported, emptySt1) ∧
    V2.checkSite noParseEnv badSite emptySt2 = (some Status.down, emptySt2) :=
  ⟨(malformed_url_checkSite noParseEnv badSite emptySt1 emptySt2 rfl).1,
   (malformed_url_checkSite noParseEnv badSite emptySt1 emptySt2 rfl).2.1⟩

/-- C5: the direct prober classifies every outcome: a disallowed scheme gives
`unsupported` without a network request; a received response gives `up`
exactly when its status is in the success range (`response.ok`) and `down`
otherwise; a thrown `TypeError` carrying the cross-origin or failed-to-fetch
signature gives `unsupported`; any other thrown error gives `down`; and a URL
that fails to parse inside the prober falls into the same catch with the
URL-constructor `TypeError` (no signature substring) and gives `down`. -/
theorem checkSiteViaFetch_classification :
    (∀ (env : Env) (site : Site) (st : V1.St) (u : URLParts),
      env.parse site.url = some u →
      u.protocol ∈ V1.unsupportedProtocols1 →
      V1.checkSiteViaFetch env site st = (Status.unsupported, st)) ∧
    (∀ (env : Env) (site : Site) (st : V1.St) (u : URLParts) (ok : Bool),
      env.parse site.url = some u →
      u.protocol ∉ V1.unsupportedProtocols1 →
      env.fetchOutcome site.url = FetchOutcome.response ok →
      V1.checkSiteViaFetch env site st =
        (if ok then Status.up else Status.down,
          { st with events := st.events ++ [Event.fetchReq site.url] })) ∧
    (∀ (env : Env) (site : Site) (st : V1.St) (u : URLParts) (e : JsError),
      env.parse site.url = some u →
      u.protocol ∉ V1.unsupportedProtocols1 →
      env.fetchOutcome site.url = FetchOutcome.failure e →
      e.isTypeError = true → (e.msgFailedToFetch = true ∨ e.msgNoACAO = true) →
      V1.checkSiteViaFetch env site st =
        (Status.unsupported, { st with events := st.events ++ [Event.fetchReq site.url] })) ∧
    (∀ (env : Env) (site : Site) (st : V1.St) (u : URLParts) (e : JsError),
      env.parse site.url = some u →
      u.protocol ∉ V1.unsupportedProtocols1 →
      env.fetchOutcome site.url = FetchOutcome.failure e →
      (e.isTypeError && (e.msgFailedToFetch || e.msgNoACAO)) = false →
      V1.checkSiteViaFetch env site st =
        (Status.down, { st with events := st.events ++ [Event.fetchReq site.url] })) ∧
    (∀ (env : Env) (site : Site) (st : V1.St),
      env.parse site.url = none →
      V1.checkSiteViaFetch env site st = (Status.down, st)) := by
  refine ⟨?_, ?_, ?_, ?_, ?_⟩
  · intro env site st u hp hs
    simp [V1.checkSiteViaFetch, hp, hs]
  · intro env site st u ok hp hs ho
    simp [V1.checkSiteViaFetch, hp, hs, ho]
  · intro env site st u e hp hs ho ht hm
    have he : fetchErrStatus e = Status.unsupported := by
      rcases hm with hm | hm <;> simp [fetchErrStatus, ht, hm]
    simp [V1.checkSiteViaFetch, hp, hs, ho, he]
  · intro env site st u e hp hs ho hf
    have he : fetchErrStatus e = Status.down := by
      simp [fetchErrStatus, hf]
    simp [V1.checkSiteViaFetch, hp, hs, ho, he]
  · intro env site st hp
    simp [V1.checkSiteViaFetch, hp, fetchErrStatus, urlCtorError]

/-- Witness for C5: each classification clause at a concrete input. -/
theorem checkSiteViaFetch_classification_witness :
    V1.checkSiteViaFetch chromeEnv chromeSite emptySt1 = (Status.unsupported, emptySt1) ∧
    V1.checkSiteViaFetch exEnv exSite emptySt1 =
      (Status.up, { emptySt1 with events := [Event.fetchReq "https://example.com"] }) ∧
    V1.checkSiteViaFetch corsEnv exSite emptySt1 =
      (Status.unsupported, { emptySt1 with events := [Event.fetchReq "https://example.com"] }) ∧
    V1.checkSiteViaFetch errEnv exSite emptySt1 =
      (Status.down, { emptySt1 with events := [Event.fetchReq "https://example.com"] }) ∧
    V1.checkSiteViaFetch noParseEnv badSite emptySt1 = (Status.down, emptySt1) := by
  have h := checkSiteViaFetch_classification
  refine ⟨h.1 chromeEnv chromeSite emptySt1 chromeURL (by decide) (by decide), ?_, ?_, ?_,
    h.2.2.2.2 noParseEnv badSite emptySt1 rfl⟩
  · have := h.2.1 exEnv exSite emptySt1 exURL true (by decide) (by decide) rfl
    simpa using this
  · have := h.2.2.1 corsEnv exSite emptySt1 exURL corsErr (by decide) (by decide) rfl
      (by decide) (Or.inl (by decide))
    simpa using this
  · have := h.2.2.2.1 errEnv exSite emptySt1 exURL plainErr (by decide) (by decide) rfl
      (by decide)
    simpa using this

/-- C6: whenever `checkSite` actually reaches the direct prober (URL parses,
hostname not denylisted, and — in the first variant — scheme allowed) and the
direct prober returns a result other than `unsupported`, `checkSite` returns
that result unchanged and the in-context prober is never invoked (no tab
query and no script injection is added to the event log), in both variants. -/
theorem direct_prober_fast_path :
    (∀ (env : Env) (site : Site) (st : V1.St) (u : URLParts),
      env.parse site.url = some u →
      u.hostname ∉ st.uncheckable →
      u.protocol ∉ V1.unsupportedProtocols1 →
      (V1.checkSiteViaFetch env site st).1 ≠ Status.unsupported →
      V1.checkSite env site st = V1.checkSiteViaFetch env site st ∧
      tabInjectEvents (V1.checkSite env site st).2.events = tabInjectEvents st.events) ∧
    (∀ (env : Env) (site : Site) (st2 : V2.St),
      (∀ u, env.parse site.url = some u → u.hostname ∉ st2.uncheckable) →
      (V2.checkSiteViaFetch env site st2).1 ≠ Status.unsupported →
      V2.checkSite env site st2 =
        (some (V2.checkSiteViaFetch env site st2).1, (V2.checkSiteViaFetch env site st2).2) ∧
      tabInjectEvents (V2.checkSite env site st2).2.events = tabInjectEvents st2.events) := by
  constructor
  · intro env site st u hp hd hs hfetch
    unfold V1.checkSite
    rw [hp]
    dsimp only
    split
    case isTrue hc => exact absurd (by simpa using hc) hd
    case isFalse hc =>
      split
      case isTrue hc2 => exact absurd (by simpa using hc2) hs
      case isFalse hc2 =>
        split
        case isTrue hc3 =>
          exact ⟨rfl, V1.checkSiteViaFetch_tabInject env site st⟩
        case isFalse hc3 =>
          exact absurd (by simpa using hc3) hfetch
  · intro env site st2 hden hfetch
    unfold V2.checkSite
    dsimp only
    split
    case isTrue hc =>
      cases hp : env.parse site.url with
      | none => rw [hp] at hc; exact absurd hc (by simp)
      | some u =>
          rw [hp] at hc
          exact absurd (by simpa using hc) (hden u hp)
    case isFalse hc =>
      split
      case isTrue hc2 =>
        exact ⟨rfl, V2.checkSiteViaFetch_tabInject2 env site st2⟩
      case isFalse hc2 =>
        exact absurd (by simpa using hc2) hfetch

/-- Witness for C6: with a succeeding fetch the fast path returns the fetch
result in both variants. -/
theorem direct_prober_fast_path_witness :
    V1.checkSite exEnv exSite emptySt1 = V1.checkSiteViaFetch exEnv exSite emptySt1 ∧
    V2.checkSite exEnv exSite emptySt2 =
      (some (V2.checkSiteViaFetch exEnv exSite emptySt2).1,
        (V2.checkSiteViaFetch exEnv exSite emptySt2).2) :=
  ⟨(direct_prober_fast_path.1 exEnv exSite emptySt1 exURL (by decide) (by decide)
      (by decide) (by decide)).1,
   (direct_prober_fast_path.2 exEnv exSite emptySt2
      (fun u hu => by simp [emptySt2]) (by decide)).1⟩

/-- C7 counterexample: in the second variant, an injection that succeeds
(no `chrome.runtime.lastError`, nonempty results array) but whose first
results entry lacks a `result` payload does NOT resolve `down` — the line
`resolve(results[0].result)` resolves `undefined` (`none`) as-is. -/
theorem content_script_payload_none_counterexample :
    tabsEnvNoPayload.inject exTab.id = InjectOutcome.payload none ∧
    (tabsEnvNoPayload.tabs "https://example.com").find?
      (V2.tabAllowed2 tabsEnvNoPayload) = some exTab ∧
    (V2.checkSiteViaContentScript tabsEnvNoPayload "https://example.com" emptySt2).1 = none ∧
    (V2.checkSiteViaContentScript tabsEnvNoPayload "https://example.com" emptySt2).1 ≠
      some Status.down := by
  decide

/-- C7 (amended): the in-context prober resolves `down` when no open tab
survives the origin match and scheme/internal-page filtering; `unsupported`
when the injection mechanism itself errors (`chrome.runtime.lastError`); and
on a successful injection with no result payload it resolves `down` when the
results array is missing or empty (both variants) or when a results entry
lacks its `result` field (first variant only — the second variant instead
resolves that absent payload, `undefined`, as-is, as the final clause
states). -/
theorem content_script_prober_classification :
    (∀ (env : Env) (url : String) (st : V1.St),
      (env.tabs url).find? (V1.tabAllowed1 env) = none →
      V1.checkSiteViaContentScript env url st =
        (Status.down, { st with events := st.events ++ [Event.tabQuery (url ++ "/*")] })) ∧
    (∀ (env : Env) (url : String) (st : V1.St) (tab : Tab),
      (env.tabs url).find? (V1.tabAllowed1 env) = some tab →
      env.inject tab.id = InjectOutcome.hostError →
      V1.checkSiteViaContentScript env url st =
        (Status.unsupported, { st with events :=
          st.events ++ [Event.tabQuery (url ++ "/*"), Event.scriptInject tab.id] })) ∧
    (∀ (env : Env) (url : String) (st : V1.St) (tab : Tab),
      (env.tabs url).find? (V1.tabAllowed1 env) = some tab →
      env.inject tab.id = InjectOutcome.noResults →
      V1.checkSiteViaContentScript env url st =
        (Status.down, { st with events :=
          st.events ++ [Event.tabQuery (url ++ "/*"), Event.scriptInject tab.id] })) ∧
    (∀ (env : Env) (url : String) (st : V1.St) (tab : Tab),
      (env.tabs url).find? (V1.tabAllowed1 env) = some tab →
      env.inject tab.id = InjectOutcome.payload none →
      V1.checkSiteViaContentScript env url st =
        (Status.down, { st with events :=
          st.events ++ [Event.tabQuery (url ++ "/*"), Event.scriptInject tab.id] })) ∧
    (∀ (env : Env) (url : String) (st2 : V2.St),
      (env.tabs url).find? (V2.tabAllowed2 env) = none →
      V2.checkSiteViaContentScript env url st2 =
        (some Status.down, { st2 with events := st2.events ++ [Event.tabQuery (url ++ "/*")] })) ∧
    (∀ (env : Env) (url : String) (st2 : V2.St) (tab : Tab),
      (env.tabs url).find? (V2.tabAllowed2 env) = some tab →
      env.inject tab.id = InjectOutcome.hostError →
      V2.checkSiteViaContentScript env url st2 =
        (some Status.unsupported, { st2 with events :=
          st2.events ++ [Event.tabQuery (url ++ "/*"), Event.scriptInject tab.id] })) ∧
    (∀ (env : Env) (url : String) (st2 : V2.St) (tab : Tab),
      (env.tabs url).find? (V2.tabAllowed2 env) = some tab →
      env.inject tab.id = InjectOutcome.noResults →
      V2.checkSiteViaContentScript env url st2 =
        (some Status.down, { st2 with events :=
          st2.events ++ [Event.tabQuery (url ++ "/*"), Event.scriptInject tab.id] })) ∧
    (∀ (env : Env) (url : String) (st2 : V2.St) (tab : Tab) (r : Option Status),
      (env.tabs url).find? (V2.tabAllowed2 env) = some tab →
      env.inject tab.id = InjectOutcome.payload r →
      V2.checkSiteViaContentScript env url st2 =
        (r, { st2 with events :=
          st2.events ++ [Event.tabQuery (url ++ "/*"), Event.scriptInject tab.id] })) := by
  refine ⟨?_, ?_, ?_, ?_, ?_, ?_, ?_, ?_⟩
  · intro env url st hf
    simp [V1.checkSiteViaContentScript, hf]
  · intro env url st tab hf hi
    simp [V1.checkSiteViaContentScript, hf, hi]
  · intro env url st tab hf hi
    simp [V1.checkSiteViaContentScript, hf, hi]
  · intro env url st tab hf hi
    simp [V1.checkSiteViaContentScript, hf, hi]
  · intro env url st2 hf
    unfold V2.checkSiteViaContentScript
    dsimp only
    split
    · rfl
    · rw [hf]
  · intro env url st2 tab hf hi
    unfold V2.checkSiteViaContentScript
    dsimp only
    split
    case isTrue he =>
      rw [List.isEmpty_iff] at he
      rw [he] at hf
      exact absurd hf (by simp)
    case isFalse he =>
      rw [hf]
      dsimp only
      rw [hi]
      simp
  · intro env url st2 tab hf hi
    unfold V2.checkSiteViaContentScript
    dsimp only
    split
    case isTrue he =>
      rw [List.isEmpty_iff] at he
      rw [he] at hf
      exact absurd hf (by simp)
    case isFalse he =>
      rw [hf]
      dsimp only
      rw [hi]
      simp
  · intro env url st2 tab r hf hi
    unfold V2.checkSiteViaContentScript
    dsimp only
    split
    case isTrue he =>
      rw [List.isEmpty_iff] at he
      rw [he] at hf
      exact absurd hf (by simp)
    case isFalse he =>
      rw [hf]
      dsimp only
      rw [hi]
      simp

/-- Witness for C7 (amended): each resolution clause at a concrete input,
including the second variant resolving an absent payload as `none`. -/
theorem content_script_prober_classification_witness :
    V1.checkSiteViaContentScript exEnv "https://example.com" emptySt1 =
      (Status.down, { emptySt1 with events := [Event.tabQuery "https://example.com/*"] }) ∧
    V1.checkSiteViaContentScript tabsEnvHostErr "https://example.com" emptySt1 =
      (Status.unsupported, { emptySt1 with events :=
        [Event.tabQuery "https://example.com/*", Event.scriptInject 7] }) ∧
    V1.checkSiteViaContentScript tabsEnvNoRes "https://example.com" emptySt1 =
      (Status.down, { emptySt1 with events :=
        [Event.tabQuery "https://example.com/*", Event.scriptInject 7] }) ∧
    V1.checkSiteViaContentScript tabsEnvNoPayload "https://example.com" emptySt1 =
      (Status.down, { emptySt1 with events :=
        [Event.tabQuery "https://example.com/*", Event.scriptInject 7] }) ∧
    V2.checkSiteViaContentScript exEnv "https://example.com" emptySt2 =
      (some Status.down, { emptySt2 with events := [Event.tabQuery "https://example.com/*"] }) ∧
    V2.checkSiteViaContentScript tabsEnvHostErr "https://example.com" emptySt2 =
      (some Status.unsupported, { emptySt2 with events :=
        [Event.tabQuery "https://example.com/*", Event.scriptInject 7] }) ∧
    V2.checkSiteViaContentScript tabsEnvNoRes "https://example.com" emptySt2 =
      (some Status.down, { emptySt2 with events :=
        [Event.tabQuery "https://example.com/*", Event.scriptInject 7] }) ∧
    V2.checkSiteViaContentScript tabsEnvNoPayload "https://example.com" emptySt2 =
      (none, { emptySt2 with events :=
        [Event.tabQuery "https://example.com/*", Event.scriptInject 7] }) := by
  have h := content_script_prober_classification
  refine ⟨?_, ?_, ?_, ?_, ?_, ?_, ?_, ?_⟩
  · simpa using h.1 exEnv "https://example.com" emptySt1 (by decide)
  · simpa using h.2.1 tabsEnvHostErr "https://example.com" emptySt1 exTab (by decide) (by decide)
  · simpa using h.2.2.1 tabsEnvNoRes "https://example.com" emptySt1 exTab (by decide) (by decide)
  · simpa using h.2.2.2.1 tabsEnvNoPayload "https://example.com" emptySt1 exTab
      (by decide) (by decide)
  · simpa using h.2.2.2.2.1 exEnv "https://example.com" emptySt2 (by decide)
  · simpa using h.2.2.2.2.2.1 tabsEnvHostErr "https://example.com" emptySt2 exTab
      (by decide) (by decide)
  · simpa using h.2.2.2.2.2.2.1 tabsEnvNoRes "https://example.com" emptySt2 exTab
      (by decide) (by decide)
  · simpa using h.2.2.2.2.2.2.2 tabsEnvNoPayload "https://example.com" emptySt2 exTab none
      (by decide) (by decide)

/-- C9: when `checkSiteNow` finds the site, the persisted `siteStatuses`
after the call is exactly the in-memory map at call time with the one key
overwritten — independent of what was persisted before, so an in-memory map
that does not reflect storage (for example a freshly initialized empty one)
makes the call drop every previously persisted entry for other URLs. -/
theorem checkSiteNow_persists_whole_map
    (env : Env) (siteUrl : String) (site : Site) (st : V1.St) (st2 : V2.St)
    (hfind : env.sites.find? (fun s => s.url == siteUrl) = some site) :
    (V1.checkSiteNow env siteUrl st).2.siteStatuses =
      insertA st.lastStatus site.url (V1.checkSite env site st).1 ∧
    (V1.checkSiteNow env siteUrl st).2.lastStatus =
      insertA st.lastStatus site.url (V1.checkSite env site st).1 ∧
    (st.lastStatus = [] →
      (V1.checkSiteNow env siteUrl st).2.siteStatuses =
        [(site.url, (V1.checkSite env site st).1)]) ∧
    (V2.checkSiteNow env siteUrl st2).2.siteStatuses =
      insertA st2.lastStatus site.url (V2.checkSite env site st2).1 ∧
    (st2.lastStatus = [] →
      (V2.checkSiteNow env siteUrl st2).2.siteStatuses =
        [(site.url, (V2.checkSite env site st2).1)]) := by
  unfold V1.checkSiteNow V2.checkSiteNow
  rw [hfind]
  dsimp only
  refine ⟨?_, ?_, ?_, ?_, ?_⟩
  · split <;> simp [V1.checkSite_lastStatus]
  · split <;> simp [V1.checkSite_lastStatus]
  · intro h0
    split <;> simp [V1.checkSite_lastStatus, h0, insertA]
  · split <;> simp [V2.checkSite_lastStatus2]
  · intro h0
    split <;> simp [V2.checkSite_lastStatus2, h0, insertA]

/-- Witness for C9: with an empty in-memory map and a stale persisted entry
for another URL, the call persists a snapshot holding only the checked URL —
the stale entry is dropped. -/
theorem checkSiteNow_persists_whole_map_witness :
    (V1.checkSiteNow exEnv "https://example.com" staleSt1).2.siteStatuses =
      [("https://example.com", Status.up)] ∧
    (V2.checkSiteNow exEnv "https://example.com" staleSt2).2.siteStatuses =
      [("https://example.com", some Status.up)] := by
  have h := checkSiteNow_persists_whole_map exEnv "https://example.com" exSite
    staleSt1 staleSt2 (by decide)
  refine ⟨?_, ?_⟩
  · rw [h.2.2.1 rfl]; decide
  · rw [h.2.2.2.2 rfl]; decide

theorem V1.addToUncheckableDomains_noop (env : Env) (raw : String) (st : V1.St)
    (h : V1.normalizeHostname env raw = "" ∨ V1.normalizeHostname env raw ∈ st.uncheckable) :
    V1.addToUncheckableDomains env raw st = st := by
  unfold V1.addToUncheckableDomains
  dsimp only
  have hc : (V1.normalizeHostname env raw == "" ||
      st.uncheckable.contains (V1.normalizeHostname env raw)) = true := by
    rcases h with h | h
    · simp [h]
    · simp [h]
  rw [if_pos hc]

theorem V1.addToUncheckableDomains_append (env : Env) (raw : String) (st : V1.St)
    (h1 : V1.normalizeHostname env raw ≠ "")
    (h2 : V1.normalizeHostname env raw ∉ st.uncheckable) :
    V1.addToUncheckableDomains env raw st =
      { st with
        uncheckable := st.uncheckable ++ [V1.normalizeHostname env raw]
        storedUncheckable := st.uncheckable ++ [V1.normalizeHostname env raw]
        events := st.events ++ [Event.notifyUncheckable (V1.normalizeHostname env raw)] } := by
  unfold V1.addToUncheckableDomains
  dsimp only
  have hcp : ¬(V1.normalizeHostname env raw == "" ||
      st.uncheckable.contains (V1.normalizeHostname env raw)) = true := by
    simp
    exact ⟨h1, h2⟩
  rw [if_neg hcp]

/-- C10: the denylist writers preserve the no-empty-entry and no-duplicate
invariant: `addToUncheckableDomains` returns the state unchanged (no storage
write, no notification) when the normalized hostname is empty or already
present — hence it is idempotent and notifies at most once per hostname —
and otherwise appends a nonempty fresh hostname; `removeSite` only filters
existing entries. -/
theorem denylist_invariants
    (env : Env) (raw : String) (st : V1.St) (i : Nat) (sites : List Site)
    (unch : List String)
    (hnd : st.uncheckable.Nodup) (hne : "" ∉ st.uncheckable) :
    ((V1.normalizeHostname env raw = "" ∨ V1.normalizeHostname env raw ∈ st.uncheckable) →
      V1.addToUncheckableDomains env raw st = st) ∧
    (V1.addToUncheckableDomains env raw st).uncheckable.Nodup ∧
    "" ∉ (V1.addToUncheckableDomains env raw st).uncheckable ∧
    V1.addToUncheckableDomains env raw (V1.addToUncheckableDomains env raw st) =
      V1.addToUncheckableDomains env raw st ∧
    (Popup.removeSite env i sites unch).2 ⊆ unch ∧
    (unch.Nodup → (Popup.removeSite env i sites unch).2.Nodup) ∧
    ("" ∉ unch → "" ∉ (Popup.removeSite env i sites unch).2) := by
  refine ⟨V1.addToUncheckableDomains_noop env raw st, ?_, ?_, ?_, ?_, ?_, ?_⟩
  · by_cases h : V1.normalizeHostname env raw = "" ∨ V1.normalizeHostname env raw ∈ st.uncheckable
    · rw [V1.addToUncheckableDomains_noop env raw st h]; exact hnd
    · push_neg at h
      rw [V1.addToUncheckableDomains_append env raw st h.1 h.2]
      simp [List.nodup_append, hnd, h.2]
  · by_cases h : V1.normalizeHostname env raw = "" ∨ V1.normalizeHostname env raw ∈ st.uncheckable
    · rw [V1.addToUncheckableDomains_noop env raw st h]; exact hne
    · push_neg at h
      rw [V1.addToUncheckableDomains_append env raw st h.1 h.2]
      intro hm
      rcases List.mem_append.mp hm with hm | hm
      · exact hne hm
      · simp at hm
        exact h.1 hm.symm
  · by_cases h : V1.normalizeHostname env raw = "" ∨ V1.normalizeHostname env raw ∈ st.uncheckable
    · rw [V1.addToUncheckableDomains_noop env raw st h,
        V1.addToUncheckableDomains_noop env raw st h]
    · push_neg at h
      rw [V1.addToUncheckableDomains_append env raw st h.1 h.2]
      apply V1.addToUncheckableDomains_noop
      right
      simp
  · unfold Popup.removeSite
    cases hg : sites[i]? with
    | none => exact List.Subset.refl unch
    | some removedSite =>
        dsimp only
        cases hp : env.parse removedSite.url with
        | none => exact List.Subset.refl unch
        | some u => exact fun a ha => List.mem_of_mem_filter ha
  · intro hnu
    unfold Popup.removeSite
    cases hg : sites[i]? with
    | none => exact hnu
    | some removedSite =>
        dsimp only
        cases hp : env.parse removedSite.url with
        | none => exact hnu
        | some u => exact hnu.filter _
  · intro hnu
    unfold Popup.removeSite
    cases hg : sites[i]? with
    | none => exact hnu
    | some removedSite =>
        dsimp only
        cases hp : env.parse removedSite.url with
        | none => exact hnu
        | some u => exact fun hm => hnu (List.mem_of_mem_filter hm)

/-- Witness for C10: a repeated denial is a no-op, a fresh denial keeps the
list duplicate-free and empty-free, and removal only filters. -/
theorem denylist_invariants_witness :
    V1.addToUncheckableDomains exEnv "example.com" denySt1 = denySt1 ∧
    (V1.addToUncheckableDomains exEnv "other.com" denySt1).uncheckable.Nodup ∧
    "" ∉ (V1.addToUncheckableDomains exEnv "other.com" denySt1).uncheckable ∧
    (Popup.removeSite exEnv 0 [exSite] ["example.com", "other.com"]).2 ⊆
      ["example.com", "other.com"] := by
  have h := denylist_invariants exEnv "example.com" denySt1 0 [exSite]
    ["example.com", "other.com"] (by decide) (by decide)
  have h2 := denylist_invariants exEnv "other.com" denySt1 0 [exSite]
    ["example.com", "other.com"] (by decide) (by decide)
  exact ⟨h.1 (Or.inr (by decide)), h2.2.1, h2.2.2.1, h.2.2.2.2.1⟩

theorem V1.checkAllLoop_fst_stable (env : Env) :
    ∀ (l : List Site),
      (∀ site ∈ l, ∀ s1 s2 : V1.St,
        (V1.checkSite env site s1).1 = (V1.checkSite env site s2).1) →
      ∀ (b1 b2 u : List (String × Status)) (t1 t2 : V1.St),
        (V1.checkAllLoop env l b1 u t1).1 = (V1.checkAllLoop env l b2 u t2).1 := by
  intro l
  induction l with
  | nil => intro _ b1 b2 u t1 t2; rfl
  | cons site rest ih =>
      intro hstable b1 b2 u t1 t2
      simp only [V1.checkAllLoop]
      have hs := hstable site (by simp) t1 t2
      rw [hs]
      exact ih (fun s hs2 s1 s2 => hstable s (by simp [hs2]) s1 s2) b1 b2 _ _ _

/-- C8: running `checkAllSites` twice in succession over the same saved-site
list, with probe outcomes stable (each site's check yielding the same status
regardless of the incidental state), persists the same `siteStatuses`
snapshot after each run. -/
theorem checkAllSites_idempotent (env : Env) (st : V1.St)
    (hstable : ∀ site ∈ env.sites, ∀ s1 s2 : V1.St,
      (V1.checkSite env site s1).1 = (V1.checkSite env site s2).1) :
    (V1.checkAllSites env (V1.checkAllSites env st)).siteStatuses =
      (V1.checkAllSites env st).siteStatuses := by
  unfold V1.checkAllSites
  dsimp only
  exact V1.checkAllLoop_fst_stable env env.sites hstable _ _ _ _ _

/-- Witness for C8 at a concrete environment with one site whose probe
outcome is state-independent. -/
theorem checkAllSites_idempotent_witness :
    (V1.checkAllSites stableEnv (V1.checkAllSites stableEnv staleSt1)).siteStatuses =
      (V1.checkAllSites stableEnv staleSt1).siteStatuses :=
  checkAllSites_idempotent stableEnv staleSt1 (fun _ _ _ _ => rfl)
